import Mathlib

/-!
Shallow embedding of the masa-madre-chatbot retrieval-augmented response
pipeline, translated from the Python sources:

  - src/lib/conversation_history.py  (ConversationHistory)
  - src/api/semantic_search.py       (similarity_search, qa_chain,
                                      generate_chatbot_response, search_products)
  - src/api/chat_api.py              (handle_message)

Python strings are modelled as `List Char` (one entry per code point, so
`len`, slicing and concatenation translate to `List.length`, `List.take`
and `++`).  Calls to external collaborators (the Mistral embedding API,
the Pinecone index, the Anthropic completion API, console input and the
feedback recorder) are modelled as `Except`-valued fields of explicit
environment records: `Except.error` stands for the call raising a Python
exception, `Except.ok` for it returning normally.  All functions below
are total Lean functions; a Python function that lets an exception escape
is modelled with an `Except` result type, while one that catches every
exception internally is modelled with a plain result type.
-/

/-- Python strings, one `Char` per code point. -/
abbrev Str := List Char

/-- A Python exception value (only its origin matters to the model). -/
inductive PErr where
  /-- TypeError, e.g. calling a function with an unexpected keyword argument. -/
  | typeError : PErr
  /-- A provider / network / auth failure raised by an external SDK call. -/
  | provider : Str → PErr
  /-- Any other exception. -/
  | err : Str → PErr
deriving DecidableEq

/-- Is an `Except` an error?  Models "this Python call raised". -/
def isErr {ε α : Type} : Except ε α → Bool
  | .error _ => true
  | .ok _ => false

/-- Decimal rendering of a natural number, as Python f-string formatting does. -/
def natChars (n : Nat) : Str := Nat.toDigits 10 n

/-- Decimal rendering of an integer (sign and digits), as Python str() does. -/
def intChars (i : Int) : Str :=
  if i < 0 then "-".data ++ natChars i.natAbs else natChars i.natAbs

/-- Rendering of a number with two decimal places, as Python "%.2f" formatting
does (round half to even on the exact value).  Implemented on the numerator and
denominator of the rational so that it evaluates by kernel reduction. -/
def fmt2 (q : ℚ) : Str :=
  let num : Int := q.num * 100
  let d : Int := (q.den : Int)
  let fl : Int := Int.fdiv num d
  let rem : Int := num - fl * d
  let cents : Int :=
    if 2 * rem < d then fl
    else if d < 2 * rem then fl + 1
    else if fl % 2 = 0 then fl else fl + 1
  let sign : Str := if cents < 0 then "-".data else []
  let a : Nat := cents.natAbs
  sign ++ natChars (a / 100) ++ ".".data ++
    (if a % 100 < 10 then "0".data else []) ++ natChars (a % 100)

/-- One decoded sale record from the JSON-encoded `sale_info` metadata field
(semantic_search.py similarity_search / search_products). -/
structure SaleRecord where
  variant_title : Str
  original_price : ℚ
  current_price : ℚ
  discount_percent : Int
deriving DecidableEq

/-- The flat string-keyed product metadata stored in the Pinecone index, as
read by similarity_search and search_products.  `has_active_sale` is stored as
the string rendering of a Python bool and may be absent (`metadata.get`).
`sale_info` is `none` when the field is absent or empty (falsy), and otherwise
carries the outcome of `json.loads` on the stored string: `Except.error` when
the decode raises, `Except.ok` with the decoded records otherwise. -/
structure MatchMetadata where
  title : Str
  category : Str
  price_range : Str
  availability : Str
  source_url : Str
  has_active_sale : Option Str
  sale_info : Option (Except PErr (List SaleRecord))

/-- One match returned by the Pinecone index query. -/
structure PMatch where
  id : Str
  score : ℚ
  metadata : MatchMetadata

/-- The per-document metadata kept on the formatted document
(semantic_search.py lines 141-147). -/
structure DocMetadata where
  title : Str
  url : Str
  price_range : Str
  availability : Str
  category : Str
deriving DecidableEq

/-- A formatted document as built by similarity_search. -/
structure Doc where
  page_content : Str
  metadata : DocMetadata
deriving DecidableEq

/-- Decoding of the `sale_info` field (semantic_search.py lines 116-122 and
406-412): absent or falsy gives the initial empty list, a decode failure is
swallowed by the bare `except: pass` and also leaves the empty list, a
successful decode gives the decoded records. -/
def decodedSaleInfo (md : MatchMetadata) : List SaleRecord :=
  match md.sale_info with
  | none => []
  | some (.error _) => []
  | some (.ok l) => l

def tituloStr : Str := "Título: ".data
def categoriaStr : Str := "\nCategoría: ".data
def precioStr : Str := "\nPrecio: ".data
def disponibilidadStr : Str := "\nDisponibilidad: ".data
def urlStr : Str := "\nURL: ".data
def nlStr : Str := "\n".data

/-- The structured content block of one match (semantic_search.py lines
125-129). -/
def contentOf (md : MatchMetadata) : Str :=
  tituloStr ++ md.title ++ categoriaStr ++ md.category ++ precioStr ++
    md.price_range ++ disponibilidadStr ++ md.availability ++ urlStr ++
    md.source_url ++ nlStr

def offerHeader : Str := "\n\n🔔 OFERTA VIGENTE: ".data
def colonDeStr : Str := ": De $".data
def aDollarStr : Str := " a $".data
def mxnOpenStr : Str := " MXN (".data
def pctOffStr : Str := "% OFF)".data
def dotSpaceStr : Str := ". ".data
def trueStr : Str := "True".data
def falseStr : Str := "False".data

/-- One formatted discount line (semantic_search.py line 136): the variant
title, both prices rendered with two decimals, and the stored (not
recomputed) discount percentage. -/
def saleLine (i : Nat) (s : SaleRecord) : Str :=
  nlStr ++ natChars i ++ dotSpaceStr ++ s.variant_title ++ colonDeStr ++
    fmt2 s.original_price ++ aDollarStr ++ fmt2 s.current_price ++
    mxnOpenStr ++ intChars s.discount_percent ++ pctOffStr

/-- The enumerated discount lines, numbering from `i`
(`enumerate(sale_info[:2], 1)` applies this to the first two records). -/
def saleLines : Nat → List SaleRecord → Str
  | _, [] => []
  | i, s :: ss => saleLine i s ++ saleLines (i + 1) ss

/-- The sale block of one match (semantic_search.py lines 131-136): present
only when the stored `has_active_sale` flag equals the string True and the
decoded sale records are non-empty (Python truthiness), and covering at most
the first two records. -/
def saleTextOf (md : MatchMetadata) : Str :=
  if md.has_active_sale = some trueStr ∧ decodedSaleInfo md ≠ [] then
    offerHeader ++ saleLines 1 ((decodedSaleInfo md).take 2)
  else []

/-- The formatted document built from one match (semantic_search.py lines
113-149): content block plus sale block, and the five metadata fields. -/
def mkDocument (m : PMatch) : Doc :=
  { page_content := contentOf m.metadata ++ saleTextOf m.metadata
    metadata :=
      { title := m.metadata.title
        url := m.metadata.source_url
        price_range := m.metadata.price_range
        availability := m.metadata.availability
        category := m.metadata.category } }

/-- The metadata of one formatted search_products result
(semantic_search.py lines 414-425). -/
structure FormattedMeta where
  title : Str
  url : Str
  price : Str
  availability : Str
  sale_info : List SaleRecord
  has_active_sale : Str
deriving DecidableEq

/-- One formatted search_products result. -/
structure FormattedResult where
  id : Str
  score : ℚ
  metadata : FormattedMeta

/-- The formatting step of search_products (semantic_search.py lines 404-425),
applied to one match. -/
def formatMatch (m : PMatch) : FormattedResult :=
  { id := m.id
    score := m.score
    metadata :=
      { title := m.metadata.title
        url := m.metadata.source_url
        price := m.metadata.price_range
        availability := m.metadata.availability
        sale_info := decodedSaleInfo m.metadata
        has_active_sale := m.metadata.has_active_sale.getD falseStr } }

/-- One conversation exchange (conversation_history.py lines 71-76).  The
`sources` field holds the Python attribute value: `none` would be Python None,
`some l` a Python list. -/
structure Exchange where
  timestamp : Str
  query : Str
  response : Str
  sources : Option (List Doc)
deriving DecidableEq

/-- The exchange dict built by add_exchange: the stored sources are
`sources or []`, which replaces None (and the already-empty list) by the
empty list, so a list is always stored. -/
def mkExchange (ts q r : Str) (sources : Option (List Doc)) : Exchange :=
  { timestamp := ts, query := q, response := r
    sources := some (sources.getD []) }

/-- The in-memory windowing step of add_exchange (conversation_history.py
lines 78-82): append, then pop the oldest entry when the length exceeds
max_history. -/
def pushExchange (maxHistory : Nat) (h : List Exchange) (e : Exchange) :
    List Exchange :=
  let h2 := h ++ [e]
  if maxHistory < h2.length then h2.drop 1 else h2

/-- Outcomes of the external calls made by _save_to_pinecone
(conversation_history.py lines 129-238): the Mistral embedding of the query,
the Pinecone upsert, the fetch-based verification (did the vector show up?),
the query-based verification, describe_index_stats, and the best-effort
error-feedback recording. -/
structure MirrorEnv where
  embed : Str → Except PErr (List ℚ)
  upsert : Except PErr Unit
  fetch : Except PErr Bool
  query_verify : Except PErr Bool
  stats : Except PErr Nat
  record_feedback : Except PErr Unit

/-- The body of the outer try of _save_to_pinecone: embedding and upsert may
raise (propagating to the outer except), while both verification attempts and
the stats call swallow their own failures in nested try/excepts and the
function then returns normally whatever the verification concluded. -/
def mirrorAttempt (env : MirrorEnv) (ex : Exchange) : Except PErr Unit :=
  match env.embed ex.query with
  | .error e => .error e
  | .ok _ =>
    match env.upsert with
    | .error e => .error e
    | .ok _ =>
      match env.fetch with
      | .ok true => match env.stats with | _ => .ok ()
      | _ =>
        match env.query_verify with
        | .ok true => match env.stats with | _ => .ok ()
        | _ => .ok ()

/-- _save_to_pinecone (conversation_history.py lines 129-238): the whole body
is wrapped in try/except; on any raise the handler logs and best-effort
records synthetic feedback (itself wrapped in a bare try/except: pass), so the
call always returns normally. -/
def save_to_pinecone (env : MirrorEnv) (ex : Exchange) : Except PErr Unit :=
  match mirrorAttempt env ex with
  | .ok _ => .ok ()
  | .error _ => match env.record_feedback with | _ => .ok ()

/-- add_exchange (conversation_history.py lines 62-86): build the exchange,
update the bounded in-memory window, then mirror to Pinecone when enabled.
Returns the new history together with the mirror-write outcome. -/
def add_exchange (env : MirrorEnv) (use_pinecone : Bool) (maxHistory : Nat)
    (h : List Exchange) (ts q r : Str) (sources : Option (List Doc)) :
    List Exchange × Except PErr Unit :=
  let ex := mkExchange ts q r sources
  let h2 := pushExchange maxHistory h ex
  (h2, if use_pinecone then save_to_pinecone env ex else .ok ())

/-- get_full_history (conversation_history.py lines 112-114). -/
def get_full_history (h : List Exchange) : List Exchange := h

def ctxHeader : Str := "📜 Historial de conversación reciente:\n".data
def usuarioStr : Str := ". Usuario: ".data
def asistenteStr : Str := "\n   Asistente: ".data
def ellipsisStr : Str := "...".data
def truncMarker : Str := " [truncado]".data

/-- The two f-string lines rendering one exchange inside get_context
(conversation_history.py lines 103-104): the query in full, the response cut
to its first 200 characters with an ellipsis exactly when longer than 200. -/
def renderExchange (i : Nat) (e : Exchange) : Str :=
  natChars i ++ usuarioStr ++ e.query ++ asistenteStr ++
    e.response.take 200 ++
    (if 200 < e.response.length then ellipsisStr else []) ++ nlStr

/-- The enumerate(…, 1) loop of get_context, numbering from `i`. -/
def renderLines : Nat → List Exchange → Str
  | _, [] => []
  | i, e :: es => renderExchange i e ++ renderLines (i + 1) es

/-- The full transcript before the hard character cap
(conversation_history.py lines 101-104). -/
def contextBody (h : List Exchange) : Str := ctxHeader ++ renderLines 1 h

/-- get_context (conversation_history.py lines 88-110): empty string on empty
history, otherwise the transcript hard-truncated to max_chars with the
truncation marker appended when it was longer. -/
def get_context (maxChars : Nat) (h : List Exchange) : Str :=
  match h with
  | [] => []
  | _ =>
    let context := contextBody h
    if maxChars < context.length then context.take maxChars ++ truncMarker
    else context

/-- Outcomes of the external calls made by the response generator
(semantic_search.py create_claude_qa_chain / generate_chatbot_response):
the Mistral query embedding, the Pinecone product-index query, the Claude
completion call (a function of the assembled prompt), the interactive
console section after the answer is produced (feedback prompts, support
ticket flow and detailed widget, lines 226-338, any of whose input() or
recording calls may raise), the best-effort error-feedback recording of the
outer except branch, the timestamp used for the appended exchange, and the
conversation-history mirror configuration. -/
structure GenEnv where
  embed_query : Str → Except PErr (List ℚ)
  index_query : List ℚ → Except PErr (List PMatch)
  complete : Str → Except PErr Str
  interact : Except PErr Unit
  record_feedback : Except PErr Unit
  now : Str
  mirror : MirrorEnv
  use_pinecone : Bool

/-- similarity_search (semantic_search.py lines 101-151): embed the query,
query the index, and format every returned match into a document.  No score
threshold is applied; the match scores are not even kept on the documents.
Embedding or index failures propagate. -/
def similarity_search (env : GenEnv) (query : Str) : Except PErr (List Doc) :=
  match env.embed_query query with
  | .error e => .error e
  | .ok emb =>
    match env.index_query emb with
    | .error e => .error e
    | .ok ms => .ok (ms.map mkDocument)

/-- Python str.join: concatenation with a separator between consecutive
elements. -/
def joinSep (sep : Str) : List Str → Str
  | [] => []
  | [x] => x
  | x :: xs => x ++ sep ++ joinSep sep xs

def sepNN : Str := "\n\n".data

/-- The product context block of qa_chain (semantic_search.py line 159):
the page contents of all retrieved documents joined by blank lines.  The
join of the empty list is the empty string. -/
def contextOf (docs : List Doc) : Str :=
  joinSep sepNN (docs.map (fun d => d.page_content))

def promptHead : Str :=
  ("Eres un asistente de panadería especializado en masa madre para Masa " ++
   "Madre Monterrey.\nBasándote en la siguiente información, responde a la " ++
   "consulta del cliente de manera útil, amable y profesional.\nSi no estás " ++
   "seguro de algo, indica que verificarás la información.\n\n").data
def promptMid : Str := "\n\n".data
def consultaStr : Str := "\n\nConsulta del cliente: ".data
def respuestaStr : Str := "\n\nRespuesta:".data

/-- The assembled prompt (semantic_search.py lines 66-78 and 167-171): the
fixed instruction template with the product context, the conversation
context and the question substituted in. -/
def qa_prompt (context conversation_context question : Str) : Str :=
  promptHead ++ context ++ promptMid ++ conversation_context ++
    consultaStr ++ question ++ respuestaStr

/-- The fixed apologetic message (semantic_search.py line 96 and lines
354-357, which carry the same text). -/
def apologyText : Str :=
  ("Lo siento, estoy teniendo problemas para procesar tu consulta. " ++
   "Por favor, inténtalo de nuevo más tarde.").data

/-- One user-visible source entry (semantic_search.py lines 216-224). -/
structure SourceEntry where
  title : Str
  url : Str
  price : Str
  availability : Str
  category : Str
deriving DecidableEq

/-- The source entry built from one retrieved document.  Every key is
present in the document metadata, so the Python .get defaults are never
taken. -/
def docToSource (d : Doc) : SourceEntry :=
  { title := d.metadata.title
    url := d.metadata.url
    price := d.metadata.price_range
    availability := d.metadata.availability
    category := d.metadata.category }

def claudeStr : Str := "claude".data

/-- The dict returned by generate_chatbot_response (semantic_search.py
lines 341-346 and 375-379).  `error_flag` and `error_type` are `none` when
the corresponding keys are absent from the returned dict. -/
structure GenPayload where
  response : Str
  sources : List SourceEntry
  provider : Str
  error_flag : Option Bool
  error_type : Option Str
deriving DecidableEq

/-- The degraded dict built in the outer except branch of
generate_chatbot_response (lines 348-379): fixed apology, empty sources, no
error_flag or error_type key. -/
def degradedPayload : GenPayload :=
  { response := apologyText
    sources := []
    provider := claudeStr
    error_flag := none
    error_type := none }

/-- generate_chatbot_response (semantic_search.py lines 187-379) for a given
history with capacity maxHistory.  The whole body runs under a try/except:
a raise from the embedding or the index query (inside qa_chain), or from the
interactive section after the answer, lands in the except branch, which
best-effort records feedback (its own failure swallowed) and returns the
degraded dict.  A completion failure is caught one level deeper, inside
generate_response (lines 83-96), which substitutes the apology text, so the
pipeline continues: the exchange is appended to the history and the payload
carries one source entry per retrieved document, with no score filtering.
Returns the payload together with the updated history. -/
def generate_chatbot_response (env : GenEnv) (maxHistory : Nat) (query : Str)
    (conv : List Exchange) : GenPayload × List Exchange :=
  match similarity_search env query with
  | .error _ =>
    match env.record_feedback with
    | _ => (degradedPayload, conv)
  | .ok docs =>
    let context := contextOf docs
    let conversation_context := get_context 1000 conv
    let prompt := qa_prompt context conversation_context query
    let response :=
      match env.complete prompt with
      | .ok t => t
      | .error _ => apologyText
    let conv2 :=
      (add_exchange env.mirror env.use_pinecone maxHistory conv env.now query
        response (some docs)).1
    let sources := docs.map docToSource
    match env.interact with
    | .error _ =>
      match env.record_feedback with
      | _ => (degradedPayload, conv2)
    | .ok _ =>
      ({ response := response
         sources := sources
         provider := claudeStr
         error_flag := none
         error_type := none }, conv2)

/-- search_products (semantic_search.py lines 382-427): embed, query the
index, format each match keeping its score and decoded sale info. -/
def search_products (env : GenEnv) (query : Str) :
    Except PErr (List FormattedResult) :=
  match env.embed_query query with
  | .error e => .error e
  | .ok emb =>
    match env.index_query emb with
    | .error e => .error e
    | .ok ms => .ok (ms.map formatMatch)

/-- Python str.contains via the `in` operator: substring test. -/
def strContains (hay needle : Str) : Bool :=
  match hay with
  | [] => needle.isEmpty
  | _ :: t => needle.isPrefixOf hay || strContains t needle

/-- The fixed escalation keyword set of handle_message (chat_api.py lines
182-186). -/
def supportKeywords : List Str :=
  [ "humano".data, "agente".data, "representante".data, "persona".data,
    "soporte".data, "hablar con alguien".data, "quiero hablar".data,
    "contactar".data, "conectar".data, "asesor".data, "ayuda humana".data,
    "humano por favor".data, "humano ahora".data ]

/-- The keyword-based escalation detection of handle_message (chat_api.py
lines 188-189): any keyword contained in the lower-cased message. -/
def is_human_request (message : Str) : Bool :=
  supportKeywords.any (fun k => strContains (message.map Char.toLower) k)

def successStr : Str := "success".data
def generationErrorStr : Str := "generation_error".data
def responseFormatErrorStr : Str := "response_format_error".data
def intentHandoffStr : Str := "intent_to_handoff".data
def generalStr : Str := "general".data

def emptyMsgText : Str :=
  "Parece que enviaste un mensaje vacío. ¿En qué puedo ayudarte?".data

def genErrorText : Str :=
  ("Lo siento, estoy teniendo dificultades técnicas temporales para " ++
   "procesar tu consulta. Por favor, inténtalo de nuevo en un momento. " ++
   "Si el problema persiste, puedes escribir \x27soporte\x27 para " ++
   "contactar con un agente humano.").data

def formatErrorText : Str :=
  ("Ups, parece que tuve un pequeño problema interno al formular mi " ++
   "respuesta. ¿Podrías repetir tu pregunta? Estoy aquí para ayudarte.").data

/-- The JSON body sent back by the /api/chat/message handler; `none` fields
model keys absent from the emitted dict. -/
structure HttpPayload where
  status : Str
  response : Str
  sources : List SourceEntry
  detected_intent : Option Str
  error_flag : Option Bool
  error_type : Option Str
deriving DecidableEq

/-- handle_message (chat_api.py lines 139-249) for a valid session, given the
already-stripped message text and the outcome of the generation call:
`Except.error` models the call raising, `.ok none` models it returning
something that is not a dict, `.ok (some r)` a dict result.  An empty message
short-circuits; otherwise the escalation keywords are matched before
generation, and only the success branch carries the detected_intent key. -/
def handle_message (genCall : Except PErr (Option GenPayload))
    (message : Str) : HttpPayload :=
  if message = [] then
    { status := successStr, response := emptyMsgText, sources := []
      detected_intent := none, error_flag := none, error_type := none }
  else
    let is_human := is_human_request message
    match genCall with
    | .error _ =>
      { status := successStr, response := genErrorText, sources := []
        detected_intent := none, error_flag := some true
        error_type := some generationErrorStr }
    | .ok none =>
      { status := successStr, response := formatErrorText, sources := []
        detected_intent := none, error_flag := some true
        error_type := some responseFormatErrorStr }
    | .ok (some r) =>
      { status := successStr, response := r.response, sources := r.sources
        detected_intent :=
          some (if is_human then intentHandoffStr else generalStr)
        error_flag := none, error_type := none }

/-- handle_message as it actually executes in chat_api.py: the call at lines
194-199 passes the keyword argument detected_human_intent, which
generate_chatbot_response (semantic_search.py line 187, parameters query,
user_id, conversation_history) does not accept, so the call raises TypeError
before the generator body runs and the handler always takes its
generation-error branch. -/
def handle_message_actual (message : Str) : HttpPayload :=
  handle_message (.error PErr.typeError) message

/-- A mirror environment in which every external call succeeds. -/
def mirrorOkEnv : MirrorEnv :=
  { embed := fun _ => .ok []
    upsert := .ok ()
    fetch := .ok true
    query_verify := .ok true
    stats := .ok 0
    record_feedback := .ok () }

/-- A retrieved match with similarity score 0.4 and no sale info. -/
def lowScoreMatch : PMatch :=
  { id := "prod-1".data
    score := 2 / 5
    metadata :=
      { title := "Cesta de ratán".data
        category := "accesorios".data
        price_range := "350".data
        availability := "En stock".data
        source_url := "https://tienda/cesta".data
        has_active_sale := none
        sale_info := none } }

/-- A sale record whose stored discount percentage (10) differs from the one
the two prices would give (50), separating verbatim reproduction from
recomputation. -/
def saleA : SaleRecord :=
  { variant_title := "Grande".data
    original_price := 100
    current_price := 50
    discount_percent := 10 }

/-- A second sale record. -/
def saleB : SaleRecord :=
  { variant_title := "Chica".data
    original_price := 80
    current_price := 60
    discount_percent := 25 }

/-- A retrieved match flagged as on sale with exactly two sale records. -/
def saleMatch : PMatch :=
  { id := "prod-2".data
    score := 9 / 10
    metadata :=
      { title := "Pan campesino".data
        category := "panes".data
        price_range := "80 - 100".data
        availability := "En stock".data
        source_url := "https://tienda/pan".data
        has_active_sale := some trueStr
        sale_info := some (.ok [saleA, saleB]) } }

/-- The same match with a sale_info string that json.loads rejects. -/
def badSaleMatch : PMatch :=
  { saleMatch with
    metadata :=
      { saleMatch.metadata with
        sale_info := some (.error (PErr.err "json decode".data)) } }

/-- A sample query. -/
def q0 : Str := "¿Tienen pan de centeno?".data

/-- A generation environment in which retrieval succeeds with the single
low-score match, the completion call raises, and the interactive section
returns normally. -/
def envCompleteFail : GenEnv :=
  { embed_query := fun _ => .ok []
    index_query := fun _ => .ok [lowScoreMatch]
    complete := fun _ => .error (PErr.provider "timeout".data)
    interact := .ok ()
    record_feedback := .ok ()
    now := "2025-01-01T00:00:00".data
    mirror := mirrorOkEnv
    use_pinecone := false }

/-- A generation environment in which retrieval succeeds with the single
low-score match and every other call succeeds. -/
def envLowScore : GenEnv :=
  { envCompleteFail with
    complete := fun _ => .ok "¡Claro que sí!".data }

/-- A generation environment in which the index returns zero matches and the
completion provider echoes the prompt it was given. -/
def envNoMatches : GenEnv :=
  { envCompleteFail with
    index_query := fun _ => .ok []
    complete := fun p => .ok p }

/-- A generation environment in which the query embedding raises. -/
def envEmbedFail : GenEnv :=
  { envCompleteFail with
    embed_query := fun _ => .error (PErr.provider "rate limit".data) }

/-- A generation environment in which retrieval returns the sale match and
every call succeeds. -/
def envSale : GenEnv :=
  { envLowScore with index_query := fun _ => .ok [saleMatch] }

/-- A sample short exchange. -/
def ex0 : Exchange :=
  { timestamp := "2025-01-01T00:00:00".data
    query := "hola".data
    response := "¡Hola! ¿En qué puedo ayudarte?".data
    sources := some [] }

/-- The arguments of one add_exchange call (plus the timestamp the call
takes from the clock). -/
structure CallArgs where
  ts : Str
  q : Str
  r : Str
  sources : Option (List Doc)
deriving DecidableEq

/-- The in-memory history after a sequence of add_exchange calls on a
freshly created history. -/
def historyAfter (env : MirrorEnv) (use_pinecone : Bool) (maxHistory : Nat)
    (calls : List CallArgs) : List Exchange :=
  calls.foldl
    (fun h c => (add_exchange env use_pinecone maxHistory h c.ts c.q c.r
      c.sources).1) []

/-- The same match with the sale_info metadata field absent. -/
def clearSaleInfo (m : PMatch) : PMatch :=
  { m with metadata := { m.metadata with sale_info := none } }

/-- The exchange built by the calls of C2Witness below. -/
def mkCall (c : CallArgs) : Exchange := mkExchange c.ts c.q c.r c.sources

theorem foldl_pushExchange (maxH : Nat) (es : List Exchange) :
    ∀ h : List Exchange, h.length ≤ maxH →
      List.foldl (pushExchange maxH) h es =
        (h ++ es).drop ((h ++ es).length - maxH) := by
  induction es with
  | nil =>
    intro h hle
    simp [Nat.sub_eq_zero_of_le hle]
  | cons e es ih =>
    intro h hle
    rw [List.foldl_cons]
    by_cases hc : maxH < (h ++ [e]).length
    · have hpush : pushExchange maxH h e = (h ++ [e]).drop 1 := by
        simp only [pushExchange, if_pos hc]
      have hlen : ((h ++ [e]).drop 1).length ≤ maxH := by
        simp only [List.length_append, List.length_cons, List.length_nil] at hc
        simp only [List.length_drop, List.length_append, List.length_cons,
          List.length_nil]
        omega
      rw [hpush, ih _ hlen]
      have h1 : ((h ++ [e]) ++ es).drop 1 = (h ++ [e]).drop 1 ++ es :=
        List.drop_append_of_le_length (by simp)
      rw [← h1, List.drop_drop]
      have h2 : (h ++ [e]) ++ es = h ++ e :: es := by simp
      rw [h2]
      congr 1
      simp only [List.length_append, List.length_cons, List.length_nil] at hc
      simp only [List.length_drop, List.length_append, List.length_cons,
        List.length_nil]
      omega
    · have hpush : pushExchange maxH h e = h ++ [e] := by
        simp only [pushExchange, if_neg hc]
      have hlen : (h ++ [e]).length ≤ maxH := Nat.le_of_not_lt hc
      rw [hpush, ih _ hlen]
      have h2 : (h ++ [e]) ++ es = h ++ e :: es := by simp
      rw [h2]

theorem historyAfter_eq (env : MirrorEnv) (upc : Bool) (maxH : Nat)
    (calls : List CallArgs) :
    historyAfter env upc maxH calls =
      (calls.map mkCall).drop (calls.length - maxH) := by
  have h1 : historyAfter env upc maxH calls =
      List.foldl (pushExchange maxH) [] (calls.map mkCall) := by
    rw [List.foldl_map]
    rfl
  rw [h1, foldl_pushExchange maxH _ [] (by simp)]
  simp

theorem mem_infix_joinSep (sep x : Str) (l : List Str) (hm : x ∈ l) :
    x <:+: joinSep sep l := by
  induction l with
  | nil => cases hm
  | cons a t ih =>
    cases hm with
    | head =>
      cases t with
      | nil => exact List.infix_refl x
      | cons b t2 =>
        exact ⟨[], sep ++ joinSep sep (b :: t2), by simp [joinSep]⟩
    | tail _ hmt =>
      cases t with
      | nil => cases hmt
      | cons b t2 =>
        exact (ih hmt).trans
          ⟨a ++ sep, [], by simp [joinSep, List.append_assoc]⟩

theorem mem_infix_renderLines (e : Exchange) :
    ∀ (i : Nat) (h : List Exchange), e ∈ h →
      (e.response.take 200 ++
        (if 200 < e.response.length then ellipsisStr else [])) <:+:
        renderLines i h := by
  intro i h
  induction h generalizing i with
  | nil => intro hm; cases hm
  | cons a t ih =>
    intro hm
    cases hm with
    | head =>
      exact ⟨natChars i ++ usuarioStr ++ e.query ++ asistenteStr,
        nlStr ++ renderLines (i + 1) t,
        by simp [renderLines, renderExchange, List.append_assoc]⟩
    | tail _ hmt =>
      exact (ih (i + 1) hmt).trans
        ⟨renderExchange i a, [], by simp [renderLines]⟩

/-- C2: for every sequence of add_exchange calls on a history created with
capacity max_history, the retained history is exactly the most recently
added max_history exchanges in arrival order (FIFO eviction of the oldest),
and its length never exceeds max_history. -/
theorem C2_history_bound (env : MirrorEnv) (upc : Bool) (maxH : Nat)
    (calls : List CallArgs) :
    get_full_history (historyAfter env upc maxH calls) =
      (calls.map mkCall).drop (calls.length - maxH) ∧
    (get_full_history (historyAfter env upc maxH calls)).length ≤ maxH := by
  rw [get_full_history, historyAfter_eq]
  refine ⟨rfl, ?_⟩
  simp only [List.length_drop, List.length_map]
  omega

/-- C7: the best-effort durable-mirror write of add_exchange never raises,
whatever the outcomes of its external calls, and the in-memory history is
exactly the pure windowed update, so a mirror failure is unobservable; with
positive capacity the appended exchange is in get_full_history. -/
theorem C7_mirror_never_raises (env : MirrorEnv) (upc : Bool) (maxH : Nat)
    (h : List Exchange) (ts q r : Str) (s : Option (List Doc)) :
    (add_exchange env upc maxH h ts q r s).2 = Except.ok () ∧
    (add_exchange env upc maxH h ts q r s).1 =
      pushExchange maxH h (mkExchange ts q r s) ∧
    (0 < maxH → mkExchange ts q r s ∈
      get_full_history (add_exchange env upc maxH h ts q r s).1) := by
  refine ⟨?_, rfl, ?_⟩
  · have hsave : save_to_pinecone env (mkExchange ts q r s) = Except.ok () := by
      unfold save_to_pinecone
      cases mirrorAttempt env (mkExchange ts q r s) with
      | ok _ => rfl
      | error _ =>
        cases env.record_feedback with
        | ok _ => rfl
        | error _ => rfl
    cases upc <;> simp [add_exchange, hsave]
  · intro hpos
    show mkExchange ts q r s ∈ pushExchange maxH h (mkExchange ts q r s)
    simp only [pushExchange]
    split
    · rename_i hc
      cases h with
      | nil =>
        simp only [List.nil_append, List.length_cons, List.length_nil] at hc
        omega
      | cons a t => simp
    · simp

/-- Closed instance of C7_mirror_never_raises at a concrete call with the
mirror enabled. -/
theorem C7_mirror_never_raises_witness :
    (0 : Nat) < 5 ∧
    mkExchange "t1".data "hola".data "¡Hola!".data none ∈
      get_full_history
        (add_exchange mirrorOkEnv true 5 [] "t1".data "hola".data
          "¡Hola!".data none).1 ∧
    (add_exchange mirrorOkEnv true 5 [] "t1".data "hola".data
      "¡Hola!".data none).2 = Except.ok () :=
  ⟨by decide,
   (C7_mirror_never_raises mirrorOkEnv true 5 [] "t1".data "hola".data
     "¡Hola!".data none).2.2 (by decide),
   (C7_mirror_never_raises mirrorOkEnv true 5 [] "t1".data "hola".data
     "¡Hola!".data none).1⟩

/-- C10: an add_exchange call with the sources argument omitted (None)
stores the empty list, and every exchange in get_full_history has a
list-valued sources field, never None. -/
theorem C10_sources_always_list (env : MirrorEnv) (upc : Bool) (maxH : Nat)
    (calls : List CallArgs) (e : Exchange)
    (hm : e ∈ get_full_history (historyAfter env upc maxH calls)) :
    (∃ l, e.sources = some l) ∧
    ∀ ts q r, (mkExchange ts q r none).sources = some [] := by
  refine ⟨?_, fun ts q r => rfl⟩
  rw [get_full_history, historyAfter_eq] at hm
  have hm2 : e ∈ calls.map mkCall := List.drop_subset _ _ hm
  rcases List.mem_map.mp hm2 with ⟨c, _, hc⟩
  exact ⟨c.sources.getD [], by rw [← hc]; rfl⟩

/-- Closed instance of C10_sources_always_list after one call with sources
omitted. -/
theorem C10_sources_always_list_witness :
    (∃ l, (mkExchange "t1".data "hola".data "ok".data none).sources = some l) ∧
    ∀ ts q r, (mkExchange ts q r none).sources = some [] :=
  C10_sources_always_list mirrorOkEnv false 5
    [⟨"t1".data, "hola".data, "ok".data, none⟩]
    (mkExchange "t1".data "hola".data "ok".data none) (by decide)

/-- C5: get_context never returns a string longer than max_chars plus the
truncation marker, and in the transcript each response appears cut to its
first 200 characters with an ellipsis appended exactly when the response is
longer than 200 characters. -/
theorem C5_context_truncation (maxChars : Nat) (h : List Exchange) :
    (get_context maxChars h).length ≤ maxChars + truncMarker.length ∧
    ∀ e ∈ h,
      (e.response.take 200 ++
        (if 200 < e.response.length then ellipsisStr else [])) <:+:
        contextBody h := by
  constructor
  · cases h with
    | nil => simp [get_context]
    | cons a t =>
      simp only [get_context]
      split
      · rename_i hc
        simp only [List.length_append, List.length_take]
        omega
      · rename_i hc
        omega
  · intro e he
    exact (mem_infix_renderLines e 1 h he).trans
      ⟨ctxHeader, [], by simp [contextBody]⟩

/-- Closed instance of C5_context_truncation on a one-exchange history. -/
theorem C5_context_truncation_witness :
    (get_context 5 [ex0]).length ≤ 5 + truncMarker.length ∧
    (ex0.response.take 200 ++
      (if 200 < ex0.response.length then ellipsisStr else [])) <:+:
      contextBody [ex0] :=
  ⟨(C5_context_truncation 5 [ex0]).1,
   (C5_context_truncation 5 [ex0]).2 ex0 (by decide)⟩

/-- C4 (code bug): as chat_api.py is written, the generation call raises
TypeError on the unexpected keyword argument detected_human_intent, so for
every non-empty message the handler answers through its generation-error
branch and the response carries no detected_intent key at all — in
particular never "intent_to_handoff", even for a query containing an
escalation keyword. -/
theorem C4_handler_returns_no_intent (msg : Str) (hne : msg ≠ []) :
    (handle_message_actual msg).detected_intent = none ∧
    (handle_message_actual msg).error_flag = some true ∧
    (handle_message_actual msg).error_type = some generationErrorStr := by
  simp [handle_message_actual, handle_message, hne]

/-- Closed instance of C4_handler_returns_no_intent: the failing input is a
message containing the escalation keywords "quiero hablar" and "humano",
for which the keyword detector fires and yet no detected_intent is
returned. -/
theorem C4_handler_returns_no_intent_witness :
    is_human_request "quiero hablar con un humano".data = true ∧
    (handle_message_actual "quiero hablar con un humano".data).detected_intent
      = none :=
  ⟨by decide,
   (C4_handler_returns_no_intent "quiero hablar con un humano".data
     (by decide)).1⟩

/-- C1 (counterexample): with one retrieved match and a completion call
that raises, generate_chatbot_response returns a payload whose sources list
is the non-empty list of all retrieved matches and which carries no
error_flag key — contradicting the claimed sources = [] and
error_flag = true. -/
theorem C1_counterexample :
    isErr (envCompleteFail.complete
      (qa_prompt (contextOf [mkDocument lowScoreMatch])
        (get_context 1000 []) q0)) = true ∧
    (generate_chatbot_response envCompleteFail 5 q0 []).1.sources =
      [docToSource (mkDocument lowScoreMatch)] ∧
    (generate_chatbot_response envCompleteFail 5 q0 []).1.sources ≠ [] ∧
    (generate_chatbot_response envCompleteFail 5 q0 []).1.error_flag = none :=
  ⟨rfl, by decide, by decide, by decide⟩

/-- C1 (amended): a raise in the embedding, the index query or the
post-answer interactive section is caught and yields the fixed degraded
payload (non-empty apology, empty sources, no error_flag/error_type keys);
a raise in the completion call is caught one level deeper, the apology text
is substituted and the payload keeps the full retrieved sources list, again
with no error_flag; nothing propagates.  error_flag = true with error_type
generation_error (resp. response_format_error) is attached only by the HTTP
handler when its generation call raises (resp. returns a non-dict). -/
theorem C1_degradation (env : GenEnv) (maxH : Nat) (q : Str)
    (conv : List Exchange) :
    (isErr (env.embed_query q) = true →
      (generate_chatbot_response env maxH q conv).1 = degradedPayload) ∧
    (∀ emb, env.embed_query q = .ok emb → isErr (env.index_query emb) = true →
      (generate_chatbot_response env maxH q conv).1 = degradedPayload) ∧
    (isErr env.interact = true →
      (generate_chatbot_response env maxH q conv).1 = degradedPayload) ∧
    (∀ emb ms, env.embed_query q = .ok emb → env.index_query emb = .ok ms →
      isErr (env.complete (qa_prompt (contextOf (ms.map mkDocument))
        (get_context 1000 conv) q)) = true →
      env.interact = .ok () →
      (generate_chatbot_response env maxH q conv).1 =
        { response := apologyText
          sources := (ms.map mkDocument).map docToSource
          provider := claudeStr
          error_flag := none
          error_type := none }) ∧
    degradedPayload.response ≠ [] ∧ degradedPayload.sources = [] ∧
    degradedPayload.error_flag = none ∧ degradedPayload.error_type = none ∧
    (∀ (e : PErr) (msg : Str), msg ≠ [] →
      (handle_message (.error e) msg).error_flag = some true ∧
      (handle_message (.error e) msg).error_type = some generationErrorStr ∧
      (handle_message (.error e) msg).sources = [] ∧
      (handle_message (.error e) msg).response ≠ []) ∧
    (∀ msg : Str, msg ≠ [] →
      (handle_message (.ok none) msg).error_flag = some true ∧
      (handle_message (.ok none) msg).error_type =
        some responseFormatErrorStr ∧
      (handle_message (.ok none) msg).sources = [] ∧
      (handle_message (.ok none) msg).response ≠ []) := by
  refine ⟨?_, ?_, ?_, ?_, by decide, rfl, rfl, rfl, ?_, ?_⟩
  · intro hE
    cases hq : env.embed_query q with
    | error e =>
      cases hr : env.record_feedback with
      | ok _ => simp [generate_chatbot_response, similarity_search, hq, hr]
      | error _ => simp [generate_chatbot_response, similarity_search, hq, hr]
    | ok emb => simp [isErr, hq] at hE
  · intro emb hE hI
    cases hi : env.index_query emb with
    | error e =>
      cases hr : env.record_feedback with
      | ok _ =>
        simp [generate_chatbot_response, similarity_search, hE, hi, hr]
      | error _ =>
        simp [generate_chatbot_response, similarity_search, hE, hi, hr]
    | ok ms => simp [isErr, hi] at hI
  · intro hInt
    cases hint : env.interact with
    | ok _ => simp [isErr, hint] at hInt
    | error e =>
      cases hq : env.embed_query q with
      | error e2 =>
        cases hr : env.record_feedback with
        | ok _ => simp [generate_chatbot_response, similarity_search, hq, hr]
        | error _ =>
          simp [generate_chatbot_response, similarity_search, hq, hr]
      | ok emb =>
        cases hi : env.index_query emb with
        | error e2 =>
          cases hr : env.record_feedback with
          | ok _ =>
            simp [generate_chatbot_response, similarity_search, hq, hi, hr]
          | error _ =>
            simp [generate_chatbot_response, similarity_search, hq, hi, hr]
        | ok ms =>
          cases hr : env.record_feedback with
          | ok _ =>
            simp [generate_chatbot_response, similarity_search, hq, hi, hint,
              hr]
          | error _ =>
            simp [generate_chatbot_response, similarity_search, hq, hi, hint,
              hr]
  · intro emb ms hE hI hC hInt
    cases hc : env.complete (qa_prompt (contextOf (ms.map mkDocument))
        (get_context 1000 conv) q) with
    | ok t => simp [isErr, hc] at hC
    | error e =>
      simp [generate_chatbot_response, similarity_search, hE, hI, hInt, hc]
  · intro e msg hne
    simp [handle_message, hne, genErrorText]
  · intro msg hne
    simp [handle_message, hne, formatErrorText]

/-- Closed instance of C1_degradation: an embedding failure yields exactly
the degraded payload, and a raising generation call at the handler yields
the error-flagged body. -/
theorem C1_degradation_witness :
    (generate_chatbot_response envEmbedFail 5 q0 []).1 = degradedPayload ∧
    (handle_message (.error PErr.typeError) q0).error_flag = some true :=
  ⟨(C1_degradation envEmbedFail 5 q0 []).1 (by decide),
   ((C1_degradation envEmbedFail 5 q0 []).2.2.2.2.2.2.2.2.1 PErr.typeError q0
     (by decide)).1⟩

/-- C3 (counterexample): a single retrieved candidate with similarity score
0.4, below the claimed 0.80 threshold, is nevertheless returned in the
user-visible sources list, which is therefore not empty. -/
theorem C3_counterexample :
    lowScoreMatch.score < 4 / 5 ∧
    (generate_chatbot_response envLowScore 5 q0 []).1.sources =
      [docToSource (mkDocument lowScoreMatch)] ∧
    (generate_chatbot_response envLowScore 5 q0 []).1.sources ≠ [] := by
  refine ⟨?_, by decide, by decide⟩
  show (2 / 5 : ℚ) < 4 / 5
  norm_num

/-- C3 (amended): no relevance threshold is applied anywhere — the sources
list returned by generate_chatbot_response is exactly the list of all
retrieved top-k matches, each mapped to its title/url/price/availability/
category entry regardless of similarity score, and every retrieved match's
formatted block is part of the generation prompt. -/
theorem C3_no_source_filtering (env : GenEnv) (maxH : Nat) (q : Str)
    (conv : List Exchange) (emb : List ℚ) (ms : List PMatch)
    (hE : env.embed_query q = .ok emb) (hI : env.index_query emb = .ok ms)
    (hInt : env.interact = .ok ()) :
    (generate_chatbot_response env maxH q conv).1.sources =
      (ms.map mkDocument).map docToSource ∧
    ∀ m ∈ ms, (mkDocument m).page_content <:+:
      qa_prompt (contextOf (ms.map mkDocument)) (get_context 1000 conv) q := by
  constructor
  · cases hc : env.complete (qa_prompt (contextOf (ms.map mkDocument))
        (get_context 1000 conv) q) with
    | ok t =>
      simp [generate_chatbot_response, similarity_search, hE, hI, hInt, hc]
    | error e =>
      simp [generate_chatbot_response, similarity_search, hE, hI, hInt, hc]
  · intro m hm
    have h1 : (mkDocument m).page_content ∈
        (ms.map mkDocument).map (fun d => d.page_content) := by
      simp only [List.map_map, List.mem_map, Function.comp]
      exact ⟨m, hm, rfl⟩
    have h2 : (mkDocument m).page_content <:+:
        contextOf (ms.map mkDocument) :=
      mem_infix_joinSep sepNN _ _ h1
    exact h2.trans ⟨promptHead,
      promptMid ++ get_context 1000 conv ++ consultaStr ++ q ++ respuestaStr,
      by simp [qa_prompt, List.append_assoc]⟩

/-- Closed instance of C3_no_source_filtering on the 0.4-score candidate:
its entry is in the sources list and its block is in the prompt. -/
theorem C3_no_source_filtering_witness :
    (generate_chatbot_response envLowScore 5 q0 []).1.sources =
      ([lowScoreMatch].map mkDocument).map docToSource ∧
    (mkDocument lowScoreMatch).page_content <:+:
      qa_prompt (contextOf ([lowScoreMatch].map mkDocument))
        (get_context 1000 []) q0 :=
  ⟨(C3_no_source_filtering envLowScore 5 q0 [] [] [lowScoreMatch]
      rfl rfl rfl).1,
   (C3_no_source_filtering envLowScore 5 q0 [] [] [lowScoreMatch]
      rfl rfl rfl).2 lowScoreMatch (by simp)⟩

/-- C6 (counterexample): with zero retrieved matches the product-context
string substituted into the prompt is the empty string, not a placeholder:
an echoing completion provider receives the template with an empty context
block. -/
theorem C6_counterexample :
    contextOf [] = [] ∧
    (generate_chatbot_response envNoMatches 5 q0 []).1.response =
      qa_prompt [] (get_context 1000 []) q0 ∧
    (generate_chatbot_response envNoMatches 5 q0 []).1.sources = [] :=
  ⟨rfl, rfl, by decide⟩

/-- C6 (amended): for a query whose similarity search yields zero matches,
the context substituted into the generation prompt is the empty string (the
template text still surrounds it), the completion provider is invoked on
that prompt, and the sources list is empty. -/
theorem C6_zero_match_context (env : GenEnv) (maxH : Nat) (q : Str)
    (conv : List Exchange) (emb : List ℚ)
    (hE : env.embed_query q = .ok emb) (hI : env.index_query emb = .ok [])
    (hInt : env.interact = .ok ()) :
    contextOf [] = [] ∧
    (generate_chatbot_response env maxH q conv).1.response =
      (match env.complete (qa_prompt [] (get_context 1000 conv) q) with
        | .ok t => t
        | .error _ => apologyText) ∧
    (generate_chatbot_response env maxH q conv).1.sources = [] := by
  refine ⟨rfl, ?_, ?_⟩
  · cases hc : env.complete (qa_prompt [] (get_context 1000 conv) q) with
    | ok t =>
      simp [generate_chatbot_response, similarity_search, hE, hI, hInt,
        contextOf, joinSep, hc]
    | error e =>
      simp [generate_chatbot_response, similarity_search, hE, hI, hInt,
        contextOf, joinSep, hc]
  · simp [generate_chatbot_response, similarity_search, hE, hI, hInt]

/-- Closed instance of C6_zero_match_context with the echoing provider. -/
theorem C6_zero_match_context_witness :
    (generate_chatbot_response envNoMatches 5 q0 []).1.response =
      (match envNoMatches.complete (qa_prompt [] (get_context 1000 []) q0) with
        | .ok t => t
        | .error _ => apologyText) ∧
    (generate_chatbot_response envNoMatches 5 q0 []).1.sources = [] :=
  ⟨(C6_zero_match_context envNoMatches 5 q0 [] [] rfl rfl rfl).2.1,
   (C6_zero_match_context envNoMatches 5 q0 [] [] rfl rfl rfl).2.2⟩

/-- C8: a document whose active-sale flag is the string True and whose
decoded sale_info holds exactly two records renders exactly the two
numbered discount lines after its content block; without the flag or
without records no discount line is rendered; and each discount line
reproduces the record's variant title, both prices and the stored discount
percentage verbatim. -/
theorem C8_sale_formatting (m : PMatch) (a b : SaleRecord) :
    (m.metadata.has_active_sale = some trueStr →
      m.metadata.sale_info = some (.ok [a, b]) →
      (mkDocument m).page_content =
        contentOf m.metadata ++
          (offerHeader ++ (saleLine 1 a ++ saleLine 2 b))) ∧
    (m.metadata.has_active_sale ≠ some trueStr ∨
        decodedSaleInfo m.metadata = [] →
      (mkDocument m).page_content = contentOf m.metadata) ∧
    ∀ (i : Nat) (s : SaleRecord),
      (s.variant_title ++ colonDeStr ++ fmt2 s.original_price ++
        aDollarStr ++ fmt2 s.current_price ++ mxnOpenStr ++
        intChars s.discount_percent ++ pctOffStr) <:+: saleLine i s := by
  refine ⟨?_, ?_, ?_⟩
  · intro hf hs
    simp [mkDocument, saleTextOf, decodedSaleInfo, hs, hf, saleLines,
      List.append_assoc]
  · intro hcase
    rcases hcase with hf | hs
    · simp [mkDocument, saleTextOf, hf]
    · simp [mkDocument, saleTextOf, hs]
  · intro i s
    exact ⟨nlStr ++ natChars i ++ dotSpaceStr, [],
      by simp [saleLine, List.append_assoc]⟩

/-- Closed instance of C8_sale_formatting: the two discount lines of the
concrete sale document, with the stored 10 percent reproduced although the
prices 100.00 and 50.00 would give 50 percent — the figure is not
recomputed. -/
theorem C8_sale_formatting_witness :
    (mkDocument saleMatch).page_content =
      contentOf saleMatch.metadata ++
        (offerHeader ++ (saleLine 1 saleA ++ saleLine 2 saleB)) ∧
    saleLine 1 saleA =
      "\n1. Grande: De $100.00 a $50.00 MXN (10% OFF)".data :=
  ⟨(C8_sale_formatting saleMatch saleA saleB).1 rfl rfl, by decide⟩

/-- C9: a match whose sale_info metadata is present but fails JSON decoding
is retrieved and formatted exactly as if it had no sale info at all — both
by similarity_search document building and by search_products formatting —
with an empty decoded sale-info list and no error surfaced. -/
theorem C9_malformed_sale_info (m : PMatch) (e : PErr)
    (hb : m.metadata.sale_info = some (.error e)) :
    decodedSaleInfo m.metadata = [] ∧
    mkDocument m = mkDocument (clearSaleInfo m) ∧
    formatMatch m = formatMatch (clearSaleInfo m) ∧
    (formatMatch m).metadata.sale_info = [] := by
  refine ⟨by simp [decodedSaleInfo, hb], ?_, ?_, ?_⟩
  · simp [mkDocument, clearSaleInfo, saleTextOf, decodedSaleInfo, contentOf,
      hb]
  · simp [formatMatch, clearSaleInfo, decodedSaleInfo, hb]
  · simp [formatMatch, decodedSaleInfo, hb]

/-- Closed instance of C9_malformed_sale_info on the concrete match whose
sale_info string json.loads rejects. -/
theorem C9_malformed_sale_info_witness :
    decodedSaleInfo badSaleMatch.metadata = [] ∧
    (formatMatch badSaleMatch).metadata.sale_info = [] :=
  ⟨(C9_malformed_sale_info badSaleMatch (PErr.err "json decode".data)
      rfl).1,
   (C9_malformed_sale_info badSaleMatch (PErr.err "json decode".data)
      rfl).2.2.2⟩
